import Mathlib

/-!
Verification of the EuroMillions local check scripts (test-local.py,
diagnose-local.py).  The scripts issue HTTP GET requests against a local
server, classify each response, optionally validate required top-level JSON
keys, and aggregate pass/fail counts.  The network, the JSON decoder of the
standard library and the datetime parser are the environment: they are
modelled as explicit inputs (a FetchOutcome per URL, a parse oracle), and
the script logic is translated line by line from the Python source.
-/

/-- Decoded JSON values, as produced by json.loads.  Numbers are modelled as
integers: no claim depends on fractional values, only on key membership and
Python truthiness. -/
inductive Json where
  | null : Json
  | bool (b : Bool) : Json
  | num (n : Int) : Json
  | str (s : String) : Json
  | arr (xs : List Json) : Json
  | obj (kvs : List (String × Json)) : Json

/-- Python truthiness of a decoded JSON value: None, False, 0, empty string,
empty list and empty dict are falsy. -/
def Json.truthy : Json → Bool
  | .null => false
  | .bool b => b
  | .num n => n != 0
  | .str s => !s.isEmpty
  | .arr xs => !xs.isEmpty
  | .obj kvs => !kvs.isEmpty

/-- Python equality of a decoded JSON value with a string: only equal strings
compare equal (str never equals int, list, dict, bool or None). -/
def Json.eqStr : Json → String → Bool
  | .str s, k => s == k
  | _, _ => false

/-- One list is a prefix of another, by element equality. -/
def isPrefixL : List Char → List Char → Bool
  | [], _ => true
  | _ :: _, [] => false
  | a :: as, b :: bs => a == b && isPrefixL as bs

/-- One list occurs as a contiguous run inside another. -/
def isInfixL (n : List Char) : List Char → Bool
  | [] => n.isEmpty
  | b :: bs => isPrefixL n (b :: bs) || isInfixL n bs

/-- Substring test: needle occurs somewhere in hay.  Models the Python
expression needle in hay for strings. -/
def containsSub (needle hay : String) : Bool :=
  isInfixL needle.toList hay.toList

/-- Python membership key in value for a string key, as used by
run_test and the diagnose script.  For a dict it tests the keys, for a list
it tests element equality, for a string it is a substring test, and for
int, bool and None it raises TypeError. -/
def jsonContains (v : Json) (key : String) : Except String Bool :=
  match v with
  | .obj kvs => .ok (kvs.any (fun kv => kv.1 == key))
  | .arr xs => .ok (xs.any (fun x => x.eqStr key))
  | .str s => .ok (containsSub key s)
  | .num _ => .error "TypeError: argument of type int is not iterable"
  | .bool _ => .error "TypeError: argument of type bool is not iterable"
  | .null => .error "TypeError: argument of type NoneType is not iterable"

/-- The list comprehension of run_test:
missing_keys = [key for key in expected_keys if key not in data].
Evaluated left to right; the first TypeError aborts it. -/
def missingKeysOf (v : Json) : List String → Except String (List String)
  | [] => .ok []
  | k :: rest => do
      let c ← jsonContains v k
      let ms ← missingKeysOf v rest
      pure (if c then ms else k :: ms)

/-- Following the words of the spec (section 4.2), for comparison with the
code: missingKeys is every key of requiredKeys absent from the top level of
the decoded body treated as a string-to-value mapping; when the body is not
such a mapping, every required key counts as missing. -/
def specMissingKeys (v : Json) (keys : List String) : List String :=
  match v with
  | .obj kvs => keys.filter (fun k => !(kvs.any (fun kv => kv.1 == k)))
  | _ => keys

/-- The exceptions that the try block of make_request can raise.  In the
Python class hierarchy HTTPError is a subclass of URLError; TimeoutError and
JSONDecodeError are not URLErrors; everything here is an Exception. -/
inductive PyExc where
  | httpError (code : Nat) (reason : String) : PyExc
  | urlError (reason : String) : PyExc
  | jsonDecodeError (msg : String) : PyExc
  | timeoutError (msg : String) : PyExc
  | otherExc (msg : String) : PyExc

/-- isinstance(e, urllib.error.HTTPError). -/
def PyExc.isHTTPError : PyExc → Bool
  | .httpError _ _ => true
  | _ => false

/-- isinstance(e, urllib.error.URLError): HTTPError is a subclass. -/
def PyExc.isURLError : PyExc → Bool
  | .httpError _ _ => true
  | .urlError _ => true
  | _ => false

/-- isinstance(e, json.JSONDecodeError). -/
def PyExc.isJSONDecodeError : PyExc → Bool
  | .jsonDecodeError _ => true
  | _ => false

/-- isinstance(e, Exception): every modelled exception derives Exception. -/
def PyExc.isException : PyExc → Bool := fun _ => true

/-- str(e) for each exception. -/
def PyExc.str : PyExc → String
  | .httpError c r => "HTTP Error " ++ toString c ++ ": " ++ r
  | .urlError r => "<urlopen error " ++ r ++ ">"
  | .jsonDecodeError m => m
  | .timeoutError m => m
  | .otherExc m => m

/-- The outcome of the try body of make_request for one URL:
urllib.request.urlopen either returns a response (urlopen raises HTTPError
for any status outside 200-299, so a normal return carries a 2xx status)
whose body json.loads then decodes, or some step raises.  A json.loads
failure appears as raised (jsonDecodeError _). -/
inductive FetchOutcome where
  | ok (status : Nat) (body : Json) : FetchOutcome
  | raised (e : PyExc) : FetchOutcome

/-- The try block returned normally with HTTP status exactly 200. -/
def FetchOutcome.ok200 : FetchOutcome → Bool
  | .ok s _ => s == 200
  | .raised _ => false

/-- The try block returned normally (any status, body decoded). -/
def FetchOutcome.returnedOk : FetchOutcome → Bool
  | .ok _ _ => true
  | .raised _ => false

/-- The record returned by make_request in both scripts:
keys status, success, data, error. -/
structure ProbeResult where
  status : Nat
  success : Bool
  data : Option Json
  error : Option String

/-- str(x) for an optional string, as printed by run_test: None prints as
"None". -/
def pyStrOpt : Option String → String
  | none => "None"
  | some s => s

/-- The except clause guards of make_request, in source order; identical in
both scripts.  The final except Exception clause is a catch-all. -/
def exceptClauses : List (PyExc → Bool) :=
  [PyExc.isHTTPError, PyExc.isURLError, PyExc.isJSONDecodeError, PyExc.isException]

/-- Some except clause of make_request catches the exception. -/
def caughtByClauses (e : PyExc) : Bool :=
  exceptClauses.any (fun p => p e)

def BASE_URL : String := "http://localhost:5000"

namespace testLocal

/-- The except handlers of make_request in test-local.py (lines 39-66).
Each constructor is dispatched to the first clause whose guard it satisfies:
HTTPError, then URLError, then JSONDecodeError, then Exception; since the
specific classes come before their superclasses, this agrees with matching
on the constructor. -/
def handleExc : PyExc → ProbeResult
  | .httpError c r => ⟨c, false, none, some ("HTTP " ++ toString c ++ ": " ++ r)⟩
  | .urlError r => ⟨0, false, none, some ("Connection error: " ++ r)⟩
  | .jsonDecodeError m => ⟨0, false, none, some ("Invalid JSON: " ++ m)⟩
  | e => ⟨0, false, none, some ("Unexpected error: " ++ e.str)⟩

/-- make_request of test-local.py (lines 28-66), given the outcome of the
try body for the requested URL.  On a normal return the record is
(status, status == 200, decoded data, None). -/
def make_request (o : FetchOutcome) : ProbeResult :=
  match o with
  | .ok s d => ⟨s, s == 200, some d, none⟩
  | .raised e => handleExc e

/-- make_request with exception propagation made explicit: a raised
exception is looked up in the except clause chain and propagates (error e)
when no clause catches it. -/
def make_requestE (o : FetchOutcome) : Except PyExc ProbeResult :=
  match o with
  | .ok s d => .ok ⟨s, s == 200, some d, none⟩
  | .raised e => if caughtByClauses e then .ok (handleExc e) else .error e

end testLocal

namespace diagnoseLocal

/-- The URLError handler of diagnose-local.py (lines 47-58): the raw reason
text is replaced by a user-facing message when it mentions a refused
connection or a name-resolution failure. -/
def connMsg (reason : String) : String :=
  if containsSub "Connection refused" reason then
    "Connection refused - server is not running"
  else if containsSub "Name or service not known" reason then
    "Server not found - check if localhost:5000 is accessible"
  else reason

/-- The generic except Exception handler text of diagnose-local.py
(line 71): a timeout is recognised by inspecting str(e) for "timeout". -/
def unexpectedMsg (m : String) : String :=
  if containsSub "timeout" m then "Request timeout"
  else "Unexpected error: " ++ m

/-- The except handlers of make_request in diagnose-local.py (lines 40-72);
dispatch order as in test-local. -/
def handleExc : PyExc → ProbeResult
  | .httpError c r => ⟨c, false, none, some ("HTTP " ++ toString c ++ ": " ++ r)⟩
  | .urlError r => ⟨0, false, none, some (connMsg r)⟩
  | .jsonDecodeError m => ⟨0, false, none, some ("Invalid JSON: " ++ m)⟩
  | e => ⟨0, false, none, some (unexpectedMsg e.str)⟩

/-- make_request of diagnose-local.py (lines 29-72). -/
def make_request (o : FetchOutcome) : ProbeResult :=
  match o with
  | .ok s d => ⟨s, s == 200, some d, none⟩
  | .raised e => handleExc e

/-- make_request with exception propagation made explicit, as in the test
variant. -/
def make_requestE (o : FetchOutcome) : Except PyExc ProbeResult :=
  match o with
  | .ok s d => .ok ⟨s, s == 200, some d, none⟩
  | .raised e => if caughtByClauses e then .ok (handleExc e) else .error e

end diagnoseLocal

/-- A check of the test script: a display name, a URL and an optional list
of required top-level keys (the tuples of the tests list in test-local.py,
lines 94-102). -/
structure CheckSpec where
  name : String
  url : String
  requiredKeys : Option (List String)

/-- colored_print appends one line to the console transcript; the color
codes do not affect any outcome and are dropped. -/
def colored_print (msg : String) (log : List String) : List String :=
  log ++ [msg]

namespace testLocal

/-- run_test of test-local.py (lines 68-88), given the try-body outcome for
its URL.  Returns the Bool result of the function, or error e when the key
check raises a TypeError (which propagates to main), together with the
console transcript. -/
def run_test (o : FetchOutcome) (name : String)
    (expected_keys : Option (List String)) (log : List String) :
    Except String Bool × List String :=
  let log := colored_print ("Testing " ++ name ++ "...") log
  let r := make_request o
  if r.success = false then
    let log := colored_print ("❌ " ++ name ++ " failed") log
    let log := colored_print ("   Status: " ++ toString r.status) log
    let log := colored_print ("   Error: " ++ pyStrOpt r.error) log
    (Except.ok false, log)
  else
    -- if expected_keys and response[data]: None and [] are falsy, as is a
    -- falsy decoded body
    let ekList := expected_keys.getD []
    let body := r.data.getD Json.null
    if (!ekList.isEmpty) && body.truthy then
      match missingKeysOf body ekList with
      | Except.error e => (Except.error e, log)
      | Except.ok missing =>
        if missing.isEmpty = false then
          let log := colored_print ("❌ " ++ name ++ " failed - missing keys: "
            ++ String.intercalate ", " missing) log
          (Except.ok false, log)
        else
          let log := colored_print ("✅ " ++ name ++ " passed") log
          (Except.ok true, log)
    else
      let log := colored_print ("✅ " ++ name ++ " passed") log
      (Except.ok true, log)

/-- The fixed tests list of test-local.py (lines 94-102). -/
def tests : List CheckSpec :=
  [⟨"Server Health", BASE_URL ++ "/api/stats",
      some ["totalCombinations", "drawnCombinations"]⟩,
   ⟨"Draw History", BASE_URL ++ "/api/history", none⟩,
   ⟨"Current Jackpot", BASE_URL ++ "/api/jackpot",
      some ["amountEur", "amountZar"]⟩,
   ⟨"Next Draw Info", BASE_URL ++ "/api/next-draw",
      some ["nextDrawDate", "timeUntilDraw"]⟩,
   ⟨"Number Analytics", BASE_URL ++ "/api/analytics/numbers",
      some ["hotNumbers", "coldNumbers"]⟩,
   ⟨"Star Analytics", BASE_URL ++ "/api/analytics/stars",
      some ["hotStars", "coldStars"]⟩,
   ⟨"Predictions", BASE_URL ++ "/api/predictions", none⟩]

/-- The for-loop of main (test-local.py lines 107-111): run every check in
list order, counting passes and failures.  The environment env gives the
try-body outcome for each URL.  Also returns the list of per-check results
(the sequence of check outcomes, in order).  A TypeError raised inside
run_test propagates and aborts the loop, as in Python. -/
def runChecks (env : String → FetchOutcome) :
    List CheckSpec → List String → Except String (List Bool × Nat × Nat) × List String
  | [], log => (Except.ok ([], 0, 0), log)
  | spec :: rest, log =>
    match run_test (env spec.url) spec.name spec.requiredKeys log with
    | (Except.error e, log) => (Except.error e, log)
    | (Except.ok b, log) =>
      match runChecks env rest log with
      | (Except.error e, log) => (Except.error e, log)
      | (Except.ok (outs, passed, failed), log) =>
        (Except.ok (b :: outs, (if b then passed + 1 else passed),
          (if b then failed else failed + 1)), log)

/-- main of test-local.py (lines 90-128): header prints, the check loop,
summary prints, and the returned exit code 0 or 1 (line 128).  An uncaught
exception is error e. -/
def mainRun (env : String → FetchOutcome) : Except String Nat × List String :=
  let log := colored_print "🧪 EuroMillions Local API Test Suite" []
  let log := colored_print (String.mk (List.replicate 50 (Char.ofNat 61))) log
  match runChecks env tests log with
  | (Except.error e, log) => (Except.error e, log)
  | (Except.ok (_, passed, failed), log) =>
    let log := colored_print "Test Results:" log
    let log := colored_print ("✅ Passed: " ++ toString passed) log
    let log := colored_print ("❌ Failed: " ++ toString failed) log
    let log :=
      if failed = 0 then
        colored_print "🎉 All tests passed!" log
      else
        colored_print "⚠️  Some tests failed. Check the errors above." log
    (Except.ok (if failed = 0 then 0 else 1), log)

/-- The process exit status of python test-local.py: the value returned by
main is passed to sys.exit (line 131); an uncaught exception makes the
interpreter exit with status 1. -/
def exitCode (env : String → FetchOutcome) : Nat :=
  match (mainRun env).1 with
  | Except.ok c => c
  | Except.error _ => 1

end testLocal

/-- Python subscription value[key] for a string key: dict lookup (KeyError
when absent), TypeError for every other decoded value. -/
def Json.getField (v : Json) (k : String) : Except String Json :=
  match v with
  | .obj kvs =>
    match kvs.find? (fun kv => kv.1 == k) with
    | some kv => .ok kv.2
    | none => .error ("KeyError: " ++ k)
  | .str _ => .error "TypeError: string indices must be integers"
  | _ => .error "TypeError: value is not subscriptable"

/-- Python len(value): defined for list, str and dict, TypeError
otherwise. -/
def Json.lenOf (v : Json) : Except String Nat :=
  match v with
  | .arr xs => .ok xs.length
  | .str s => .ok s.length
  | .obj kvs => .ok kvs.length
  | _ => .error "TypeError: object has no len"

/-- Python value[0]: first list element (IndexError when empty), first
character of a string, KeyError for a dict (decoded JSON keys are strings,
never the int 0), TypeError otherwise. -/
def Json.getIndex0 (v : Json) : Except String Json :=
  match v with
  | .arr [] => .error "IndexError: list index out of range"
  | .arr (x :: _) => .ok x
  | .str s =>
    if s.isEmpty then .error "IndexError: string index out of range"
    else .ok (.str (s.take 1))
  | .obj _ => .error "KeyError: 0"
  | _ => .error "TypeError: value is not subscriptable"

/-- Python value.replace(...) requires a string (AttributeError
otherwise); used for latest[drawDate].replace in diagnose-local.py. -/
def Json.asStr (v : Json) : Except String String :=
  match v with
  | .str s => .ok s
  | _ => .error "AttributeError: value has no replace method"

/-- Effect of the f-string format spec with a comma separator,
f-string braces around value:, — it formats ints and bools and raises for
every other decoded value.  The produced text is dropped: no control flow
reads it. -/
def Json.fmtComma (v : Json) : Except String Unit :=
  match v with
  | .num _ => .ok ()
  | .bool _ => .ok ()
  | _ => .error "ValueError: cannot format value with a comma separator"

/-- Effect of value * 100 followed by a fixed-point format spec
(diagnose-local.py line 159): ints and bools format, strings and lists
repeat under * and then fail to format, dict and None raise at *. -/
def Json.fmtPercent (v : Json) : Except String Unit :=
  match v with
  | .num _ => .ok ()
  | .bool _ => .ok ()
  | _ => .error "TypeError: cannot multiply and format value"

/-- Effect of ", ".join(map(str, v)): defined for every iterable (list,
str, dict), TypeError otherwise.  The joined text is dropped. -/
def Json.joinIter (v : Json) : Except String Unit :=
  match v with
  | .arr _ => .ok ()
  | .str _ => .ok ()
  | .obj _ => .ok ()
  | _ => .error "TypeError: value is not iterable"

/-- Effect of [str(n[field]) for n in v[:k]] (diagnose-local.py lines 173
and 176): subscript each of the first k elements by field. -/
def sliceFieldsList (k : String) : List Json → Except String Unit
  | [] => .ok ()
  | x :: rest => do
    let _ ← x.getField k
    sliceFieldsList k rest

/-- Slicing v[:n] followed by the element accesses: a list is truncated, a
string yields its characters (each of which then fails the subscription
unless there are none), everything else raises at the slice. -/
def sliceFields (v : Json) (n : Nat) (k : String) : Except String Unit :=
  match v with
  | .arr xs => sliceFieldsList k (xs.take n)
  | .str s =>
    if s.isEmpty then .ok ()
    else .error "TypeError: string indices must be integers"
  | _ => .error "TypeError: value is not subscriptable"

namespace diagnoseLocal

/-- main of diagnose-local.py (lines 74-197), given the try-body outcome
for each URL and an oracle parseIso for
datetime.fromisoformat (Python standard library, not repository code):
parseIso s is ok () when s parses and a ValueError otherwise.  The
function models every data access performed while printing (each can raise,
and an uncaught exception aborts main); the printed text itself carries no
control flow and is dropped.  main always returns None: the ok value is
(). -/
def mainRun (env : String → FetchOutcome)
    (parseIso : String → Except String Unit) : Except String Unit := do
  -- 1. server connection (line 81)
  let health := make_request (env (BASE_URL ++ "/api/stats"))
  if health.success = false then
    -- prints remediation text only; the membership tests on the error text
    -- are guarded by health_check[error] and cannot raise; then return
    pure ()
  else do
    -- 2. database stats (line 114)
    let stats := make_request (env (BASE_URL ++ "/api/stats"))
    if stats.success = false then pure ()
    else do
      let d := stats.data.getD Json.null
      let tc ← d.getField "totalCombinations"
      let _ ← tc.fmtComma
      let _ ← d.getField "drawnCombinations"
      let nd ← d.getField "neverDrawnCombinations"
      let _ ← nd.fmtComma
    -- 3. draw history (line 129)
    let history := make_request (env (BASE_URL ++ "/api/history"))
    if history.success = false then pure ()
    else do
      let d := history.data.getD Json.null
      let n ← d.lenOf
      if n > 0 then do
        let latest ← d.getIndex0
        let dd ← latest.getField "drawDate"
        let s ← dd.asStr
        let _ ← parseIso (s.replace "Z" "+00:00")
        let nums ← latest.getField "numbers"
        let _ ← nums.joinIter
        let stars ← latest.getField "stars"
        let _ ← stars.joinIter
      else pure ()
    -- 4. force initialization (line 148)
    let init := make_request (env (BASE_URL ++ "/api/initialize"))
    if init.success = false then pure ()
    else do
      -- if init[data] and stats in init[data]:
      let d := init.data.getD Json.null
      if d.truthy then do
        let c ← jsonContains d "stats"
        if c then do
          let sd ← d.getField "stats"
          let _ ← sd.getField "drawnCombinations"
          let pa ← sd.getField "predictionAccuracy"
          let _ ← pa.fmtPercent
        else pure ()
      else pure ()
    -- 5. analytics (line 163)
    let analytics := make_request (env (BASE_URL ++ "/api/analytics/numbers"))
    if analytics.success = false then pure ()
    else do
      let d := analytics.data.getD Json.null
      let c ← jsonContains d "hotNumbers"
      (if c then do
        let hn ← d.getField "hotNumbers"
        if hn.truthy then sliceFields hn 5 "number" else pure ()
      else pure ())
      let c2 ← jsonContains d "hotStars"
      if c2 then do
        let hs ← d.getField "hotStars"
        if hs.truthy then sliceFields hs 3 "number" else pure ()
      else pure ()
    -- final summary (lines 180-195): reads the success flags already bound;
    -- prints only, no further data accesses
    pure ()

/-- The process exit status of python diagnose-local.py: main is called
without sys.exit (line 200) and always returns None, so a completed run
exits 0; an uncaught exception makes the interpreter exit 1. -/
def exitCode (env : String → FetchOutcome)
    (parseIso : String → Except String Unit) : Nat :=
  match mainRun env parseIso with
  | Except.ok _ => 0
  | Except.error _ => 1

end diagnoseLocal

/-- The computation produced a value rather than an exception. -/
def isOkE {ε α : Type} : Except ε α → Bool
  | Except.ok _ => true
  | Except.error _ => false

/-- A healthy server: every endpoint answers 200 with one JSON object
carrying every key any check requires. -/
def envAllPass : String → FetchOutcome := fun _ =>
  FetchOutcome.ok 200 (Json.obj
    [("totalCombinations", Json.num 139838160),
     ("drawnCombinations", Json.num 50),
     ("amountEur", Json.num 17000000),
     ("amountZar", Json.num 340000000),
     ("nextDrawDate", Json.str "2025-01-03"),
     ("timeUntilDraw", Json.str "2 days"),
     ("hotNumbers", Json.arr [Json.obj [("number", Json.num 7)]]),
     ("coldNumbers", Json.arr [Json.obj [("number", Json.num 13)]]),
     ("hotStars", Json.arr [Json.obj [("number", Json.num 2)]]),
     ("coldStars", Json.arr [Json.obj [("number", Json.num 9)]])])

/-- No server listening: every request raises URLError with the usual
connection-refused reason text. -/
def envRefused : String → FetchOutcome := fun _ =>
  FetchOutcome.raised (PyExc.urlError "[Errno 111] Connection refused")

/-- Every endpoint answers 200 whose body decodes to the bare number 42. -/
def envNumBody : String → FetchOutcome := fun _ =>
  FetchOutcome.ok 200 (Json.num 42)

/-- A datetime oracle that accepts every string. -/
def parseIsoAny : String → Except String Unit := fun _ => Except.ok ()

theorem run_test_fst_log (o : FetchOutcome) (n : String)
    (ek : Option (List String)) (l₁ l₂ : List String) :
    (testLocal.run_test o n ek l₁).1 = (testLocal.run_test o n ek l₂).1 := by
  unfold testLocal.run_test
  dsimp only
  split
  · rfl
  · split
    · split
      · rfl
      · split <;> rfl
    · rfl

theorem runChecks_fst_log (env : String → FetchOutcome) (specs : List CheckSpec)
    (l₁ l₂ : List String) :
    (testLocal.runChecks env specs l₁).1 = (testLocal.runChecks env specs l₂).1 := by
  induction specs generalizing l₁ l₂ with
  | nil => rfl
  | cons s rest ih =>
    have h1 := run_test_fst_log (env s.url) s.name s.requiredKeys l₁ l₂
    rcases hA : testLocal.run_test (env s.url) s.name s.requiredKeys l₁ with ⟨ra, la⟩
    rcases hB : testLocal.run_test (env s.url) s.name s.requiredKeys l₂ with ⟨rb, lb⟩
    rw [hA, hB] at h1
    dsimp only at h1
    subst h1
    unfold testLocal.runChecks
    rw [hA, hB]
    cases ra with
    | error e => rfl
    | ok b =>
      dsimp only
      have h2 := ih la lb
      rcases hC : testLocal.runChecks env rest la with ⟨rc, lc⟩
      rcases hD : testLocal.runChecks env rest lb with ⟨rd, ld⟩
      rw [hC, hD] at h2
      dsimp only at h2
      subst h2
      cases rc with
      | error e => rfl
      | ok t => rcases t with ⟨outs, p, f⟩; rfl

theorem runChecks_counts (env : String → FetchOutcome) (specs : List CheckSpec)
    (log : List String) (outs : List Bool) (p f : Nat)
    (h : (testLocal.runChecks env specs log).1 = Except.ok (outs, p, f)) :
    outs.length = specs.length ∧ p = outs.count true ∧ f = outs.count false := by
  induction specs generalizing log outs p f with
  | nil =>
    unfold testLocal.runChecks at h
    simp only [Prod.fst] at h
    injection h with h
    injection h with h1 h2
    injection h2 with h2 h3
    subst h1; subst h2; subst h3
    simp
  | cons s rest ih =>
    unfold testLocal.runChecks at h
    rcases hA : testLocal.run_test (env s.url) s.name s.requiredKeys log with ⟨ra, la⟩
    rw [hA] at h
    cases ra with
    | error e => simp at h
    | ok b =>
      dsimp only at h
      rcases hC : testLocal.runChecks env rest la with ⟨rc, lc⟩
      rw [hC] at h
      cases rc with
      | error e => simp at h
      | ok t =>
        rcases t with ⟨outs2, p2, f2⟩
        dsimp only at h
        injection h with h
        injection h with h1 h2
        injection h2 with h2 h3
        subst h1
        have hr : (testLocal.runChecks env rest la).1 = Except.ok (outs2, p2, f2) := by
          rw [hC]
        obtain ⟨hl, hp, hf⟩ := ih la outs2 p2 f2 hr
        subst h2; subst h3; subst hp; subst hf
        cases b <;> simp [List.count_cons, hl]

theorem count_true_add_count_false (l : List Bool) :
    l.count true + l.count false = l.length := by
  induction l with
  | nil => rfl
  | cons b rest ih => cases b <;> simp [List.count_cons] <;> omega

theorem count_false_zero_iff_all (l : List Bool) :
    (l.count false = 0) ↔ l.all (fun b => b) = true := by
  induction l with
  | nil => simp
  | cons b rest ih => cases b <;> simp [List.count_cons, ih]

theorem missingKeysOf_obj (kvs : List (String × Json)) (keys : List String) :
    missingKeysOf (Json.obj kvs) keys
      = Except.ok (specMissingKeys (Json.obj kvs) keys) := by
  induction keys with
  | nil => rfl
  | cons k rest ih =>
    simp only [missingKeysOf, jsonContains]
    rw [ih]
    cases h : kvs.any (fun kv => kv.1 == k) <;>
      simp [h, specMissingKeys, Bind.bind, Except.bind, pure, Except.pure,
        List.filter_cons]


/-- Claim C1, counterexample: when urlopen returns a non-200 success status
(HTTPError is raised only for statuses outside 200-299, so a 201 response
returns normally) with a valid JSON body, make_request returns
succeeded=false together with errorMessage=None, contradicting the claimed
invariant that errorMessage is set iff succeeded is false. -/
theorem make_request_status201_no_error_flag :
    (testLocal.make_request (FetchOutcome.ok 201 (Json.obj [("id", Json.num 1)]))).success
      = false ∧
    (testLocal.make_request (FetchOutcome.ok 201 (Json.obj [("id", Json.num 1)]))).error
      = none :=
  ⟨rfl, rfl⟩

/-- Claim C1, amended: in both script variants, succeeded is true iff the
request returned HTTP status exactly 200 with a body that decoded as JSON,
and errorMessage is null iff the request returned normally (any 2xx status
with a decoded body) - so errorMessage is set iff succeeded is false except
in the non-200 2xx case, where succeeded is false yet errorMessage is
null. -/
theorem make_request_success_error_characterization (o : FetchOutcome) :
    ((testLocal.make_request o).success = true ↔ o.ok200 = true) ∧
    ((testLocal.make_request o).error = none ↔ o.returnedOk = true) ∧
    ((diagnoseLocal.make_request o).success = true ↔ o.ok200 = true) ∧
    ((diagnoseLocal.make_request o).error = none ↔ o.returnedOk = true) := by
  cases o with
  | ok s d =>
    simp [testLocal.make_request, diagnoseLocal.make_request,
      FetchOutcome.ok200, FetchOutcome.returnedOk]
  | raised e =>
    cases e <;>
      simp [testLocal.make_request, diagnoseLocal.make_request,
        testLocal.handleExc, diagnoseLocal.handleExc,
        FetchOutcome.ok200, FetchOutcome.returnedOk]

/-- Claim C3, counterexample: in the test-local variant a refused connection
produces errorMessage "Connection error: <reason>"; the user-facing
substitution "Connection refused - server is not running" does not occur in
that message, so the claimed behavior does not hold in every script
variant. -/
theorem test_variant_no_refused_substitution :
    (testLocal.make_request (FetchOutcome.raised
        (PyExc.urlError "[Errno 111] Connection refused"))).error
      = some "Connection error: [Errno 111] Connection refused" ∧
    containsSub "Connection refused - server is not running"
      "Connection error: [Errno 111] Connection refused" = false :=
  ⟨rfl, by decide⟩

/-- Claim C3, amended: when the connection is refused (the URLError reason
text contains "Connection refused"), the diagnose-local variant returns
succeeded=false, statusCode=0 and errorMessage "Connection refused - server
is not running", while the test-local variant returns succeeded=false,
statusCode=0 and errorMessage "Connection error: <reason>" without the
substitution. -/
theorem connection_refused_messages (reason : String)
    (h : containsSub "Connection refused" reason = true) :
    diagnoseLocal.make_request (FetchOutcome.raised (PyExc.urlError reason))
      = ⟨0, false, none, some "Connection refused - server is not running"⟩ ∧
    testLocal.make_request (FetchOutcome.raised (PyExc.urlError reason))
      = ⟨0, false, none, some ("Connection error: " ++ reason)⟩ := by
  refine ⟨?_, rfl⟩
  simp [diagnoseLocal.make_request, diagnoseLocal.handleExc,
    diagnoseLocal.connMsg, h]

/-- Witness for the amended claim C3 at the concrete reason text
"[Errno 111] Connection refused". -/
theorem connection_refused_messages_witness :
    containsSub "Connection refused" "[Errno 111] Connection refused" = true ∧
    diagnoseLocal.make_request (FetchOutcome.raised
        (PyExc.urlError "[Errno 111] Connection refused"))
      = ⟨0, false, none, some "Connection refused - server is not running"⟩ :=
  ⟨by decide,
    (connection_refused_messages "[Errno 111] Connection refused" (by decide)).1⟩

/-- Claim C5: make_request never raises to its caller.  In both script
variants, for every outcome of the try body (normal 2xx return, HTTPError,
URLError, JSONDecodeError, timeout or any other exception), the except
clause chain catches the exception and the function evaluates to the
ProbeResult value computed by the matching handler - the propagated-
exception branch of make_requestE is never reached. -/
theorem make_request_never_raises (o : FetchOutcome) :
    testLocal.make_requestE o = Except.ok (testLocal.make_request o) ∧
    diagnoseLocal.make_requestE o = Except.ok (diagnoseLocal.make_request o) := by
  cases o with
  | ok s d => exact ⟨rfl, rfl⟩
  | raised e => cases e <;> exact ⟨rfl, rfl⟩

/-- Claim C7: in both script variants, a non-200 status raised as an
HTTPError yields succeeded=false, statusCode equal to that status, and
errorMessage "HTTP <code>: <reason>". -/
theorem make_request_http_error_fields (c : Nat) (reason : String)
    (h : c ≠ 200) :
    testLocal.make_request (FetchOutcome.raised (PyExc.httpError c reason))
      = ⟨c, false, none, some ("HTTP " ++ toString c ++ ": " ++ reason)⟩ ∧
    diagnoseLocal.make_request (FetchOutcome.raised (PyExc.httpError c reason))
      = ⟨c, false, none, some ("HTTP " ++ toString c ++ ": " ++ reason)⟩ :=
  ⟨rfl, rfl⟩

/-- Witness for claim C7 at HTTP 500. -/
theorem make_request_http_error_fields_witness :
    (500 ≠ 200) ∧
    testLocal.make_request (FetchOutcome.raised
        (PyExc.httpError 500 "Internal Server Error"))
      = ⟨500, false, none, some "HTTP 500: Internal Server Error"⟩ :=
  ⟨by decide,
    (make_request_http_error_fields 500 "Internal Server Error" (by decide)).1⟩

/-- Claim C8, counterexample: for a timeout whose text is
"connection timeout", the test-local variant reports the generic
"Unexpected error: connection timeout" - it performs no inspection of the
error text - whereas the substitution the claim requires of every variant
(implemented only in diagnose-local) would produce "Request timeout". -/
theorem test_variant_timeout_not_distinguished :
    (testLocal.make_request (FetchOutcome.raised
        (PyExc.timeoutError "connection timeout"))).error
      = some "Unexpected error: connection timeout" ∧
    diagnoseLocal.unexpectedMsg "connection timeout" = "Request timeout" :=
  ⟨rfl, by decide⟩

/-- Claim C8, amended: only the diagnose-local variant distinguishes a
timeout by inspecting the error text: its generic handler returns
"Request timeout" when str(e) contains "timeout" and
"Unexpected error: <text>" otherwise, for a TimeoutError as well as any
other unexpected exception; the test-local variant always returns
"Unexpected error: <text>". -/
theorem timeout_message_amended (m : String) :
    (diagnoseLocal.make_request (FetchOutcome.raised (PyExc.timeoutError m))).error
      = some (diagnoseLocal.unexpectedMsg m) ∧
    (diagnoseLocal.make_request (FetchOutcome.raised (PyExc.otherExc m))).error
      = some (diagnoseLocal.unexpectedMsg m) ∧
    (testLocal.make_request (FetchOutcome.raised (PyExc.timeoutError m))).error
      = some ("Unexpected error: " ++ m) ∧
    (testLocal.make_request (FetchOutcome.raised (PyExc.otherExc m))).error
      = some ("Unexpected error: " ++ m) :=
  ⟨rfl, rfl, rfl, rfl⟩

/-- Claim C10: when the probe succeeds (status 200, body decoded) but the
decoded body is falsy - an empty object, empty array, null, 0 or an empty
string - run_test skips the required-key validation entirely and reports
the check as passed, even when requiredKeys is non-empty. -/
theorem run_test_falsy_body_passes (d : Json) (keys : List String)
    (n : String) (log : List String) (hk : keys ≠ []) (hd : d.truthy = false) :
    (testLocal.run_test (FetchOutcome.ok 200 d) n (some keys) log).1
      = Except.ok true := by
  unfold testLocal.run_test
  dsimp only
  simp [testLocal.make_request, hd]

/-- Witness for claim C10 at the empty-object body with one required
key. -/
theorem run_test_falsy_body_passes_witness :
    (["totalCombinations"] ≠ ([] : List String)) ∧
    (Json.obj []).truthy = false ∧
    (testLocal.run_test (FetchOutcome.ok 200 (Json.obj []))
        "Server Health" (some ["totalCombinations"]) []).1 = Except.ok true :=
  ⟨by decide, rfl,
    run_test_falsy_body_passes (Json.obj []) ["totalCombinations"]
      "Server Health" [] (by decide) rfl⟩

/-- Claim C2, counterexample: against the body that decodes to the empty
object - from which every required key is absent, so the spec-side
missingKeys is non-empty and the outcome should be a failure - run_test
skips the validation (the falsy body fails the guard
if expected_keys and response[data]) and reports the check as passed. -/
theorem run_test_empty_object_skips_required_keys :
    (testLocal.run_test (FetchOutcome.ok 200 (Json.obj [])) "Server Health"
        (some ["totalCombinations"]) []).1 = Except.ok true ∧
    specMissingKeys (Json.obj []) ["totalCombinations"] = ["totalCombinations"] :=
  ⟨rfl, rfl⟩

/-- Claim C2, amended: when the probe succeeded, requiredKeys is present
and non-empty, and the decoded body is a non-empty JSON object, run_test
computes missing_keys as exactly the required keys absent from the top
level of the body and the check fails iff that list is non-empty; when the
body is falsy the validation is skipped and the check passes, and for
truthy non-object bodies Python membership semantics apply (element
equality for arrays, substring for strings, TypeError otherwise). -/
theorem run_test_object_body_missing_keys (kvs : List (String × Json))
    (keys : List String) (n : String) (log : List String)
    (hk : keys ≠ []) (ht : kvs ≠ []) :
    missingKeysOf (Json.obj kvs) keys
      = Except.ok (specMissingKeys (Json.obj kvs) keys) ∧
    (testLocal.run_test (FetchOutcome.ok 200 (Json.obj kvs)) n (some keys) log).1
      = Except.ok ((specMissingKeys (Json.obj kvs) keys).isEmpty) := by
  refine ⟨missingKeysOf_obj kvs keys, ?_⟩
  have hke : keys.isEmpty = false := by
    cases keys with
    | nil => exact absurd rfl hk
    | cons a as => rfl
  have hkv : kvs.isEmpty = false := by
    cases kvs with
    | nil => exact absurd rfl ht
    | cons a as => rfl
  have hMR : testLocal.make_request (FetchOutcome.ok 200 (Json.obj kvs))
      = ⟨200, true, some (Json.obj kvs), none⟩ := rfl
  unfold testLocal.run_test
  dsimp only
  rw [hMR]
  dsimp only [Option.getD]
  rw [missingKeysOf_obj]
  cases hempty : (specMissingKeys (Json.obj kvs) keys).isEmpty <;>
    simp [Json.truthy, hke, hkv, hempty]

/-- Witness for the amended claim C2, the scenario of the spec: required
keys [totalCombinations, drawnCombinations] against a body containing only
drawnCombinations - one key missing, check fails. -/
theorem run_test_object_body_missing_keys_witness :
    (["totalCombinations", "drawnCombinations"] ≠ ([] : List String)) ∧
    ([("drawnCombinations", Json.num 50)] ≠ ([] : List (String × Json))) ∧
    (testLocal.run_test
        (FetchOutcome.ok 200 (Json.obj [("drawnCombinations", Json.num 50)]))
        "Server Health" (some ["totalCombinations", "drawnCombinations"]) []).1
      = Except.ok ((specMissingKeys
          (Json.obj [("drawnCombinations", Json.num 50)])
          ["totalCombinations", "drawnCombinations"]).isEmpty) :=
  ⟨List.cons_ne_nil _ _, List.cons_ne_nil _ _,
    (run_test_object_body_missing_keys [("drawnCombinations", Json.num 50)]
      ["totalCombinations", "drawnCombinations"] "Server Health" []
      (List.cons_ne_nil _ _) (List.cons_ne_nil _ _)).2⟩

/-- Claim C6, counterexample: when the first check answers 200 with the
body 42 (a truthy non-container) and has required keys, the membership
test raises TypeError, the loop aborts, the second spec is never attempted
and no summary with passedCount + failedCount = 2 exists. -/
theorem runChecks_aborts_on_type_error :
    (testLocal.runChecks envNumBody
        [⟨"First", "u", some ["k"]⟩, ⟨"Second", "u", none⟩] []).1
      = Except.error "TypeError: argument of type int is not iterable" :=
  rfl

/-- Claim C6, amended: provided no check raises an uncaught exception
(every run_test returns a value), every spec in the list is attempted
regardless of earlier failures - the run produces one outcome per spec, in
list order - and the summary satisfies passedCount + failedCount = length
of the spec list; an uncaught TypeError instead aborts the remaining
checks. -/
theorem runChecks_attempts_all_amended (env : String → FetchOutcome)
    (specs : List CheckSpec) (log : List String)
    (h : ∀ s ∈ specs,
      isOkE (testLocal.run_test (env s.url) s.name s.requiredKeys []).1 = true) :
    ∃ outs p f, (testLocal.runChecks env specs log).1 = Except.ok (outs, p, f) ∧
      outs.length = specs.length ∧ p + f = specs.length := by
  revert h
  induction specs generalizing log with
  | nil => intro h; exact ⟨[], 0, 0, rfl, rfl, rfl⟩
  | cons s rest ih =>
    intro h
    have hs := h s (List.mem_cons_self s rest)
    have hfst := run_test_fst_log (env s.url) s.name s.requiredKeys log []
    rcases hA : testLocal.run_test (env s.url) s.name s.requiredKeys log with ⟨ra, la⟩
    rw [hA] at hfst
    dsimp only at hfst
    cases ra with
    | error e =>
      rw [← hfst] at hs
      simp [isOkE] at hs
    | ok b =>
      obtain ⟨outs, p, f, hrest, hlen, hsum⟩ :=
        ih la (fun t ht => h t (List.mem_cons_of_mem s ht))
      unfold testLocal.runChecks
      rw [hA]
      dsimp only
      rcases hC : testLocal.runChecks env rest la with ⟨rc, lc⟩
      rw [hC] at hrest
      dsimp only at hrest
      subst hrest
      refine ⟨b :: outs, (if b then p + 1 else p), (if b then f else f + 1),
        rfl, by simp [hlen], ?_⟩
      cases b <;> simp <;> omega

/-- Witness for the amended claim C6: against a healthy server every one
of the seven fixed checks completes, all are attempted, and the summary
counts add up to seven. -/
theorem runChecks_attempts_all_witness :
    (∀ s ∈ testLocal.tests,
      isOkE (testLocal.run_test (envAllPass s.url) s.name s.requiredKeys []).1
        = true) ∧
    (∃ outs p f,
      (testLocal.runChecks envAllPass testLocal.tests []).1
        = Except.ok (outs, p, f) ∧
      outs.length = testLocal.tests.length ∧
      p + f = testLocal.tests.length) :=
  ⟨by decide,
    runChecks_attempts_all_amended envAllPass testLocal.tests [] (by decide)⟩

/-- Claim C9: the check runner is a pure fold over the spec list and the
per-URL responses; its only state is the console transcript, which it never
reads.  Running it a second time, starting from the transcript the first
run produced, yields the identical outcome sequence and identical
summary. -/
theorem runChecks_idempotent (env : String → FetchOutcome)
    (specs : List CheckSpec) (log : List String) :
    (testLocal.runChecks env specs ((testLocal.runChecks env specs log).2)).1
      = (testLocal.runChecks env specs log).1 :=
  runChecks_fst_log env specs _ log

/-- Claim C4, counterexample: with no server listening every probe of
diagnose-local.py fails, yet its main returns after printing remediation
text and the script - which calls main() without sys.exit - exits with
status 0, not 1, despite the failed check. -/
theorem diagnose_exit_zero_on_failed_check :
    diagnoseLocal.exitCode envRefused parseIsoAny = 0 ∧
    (diagnoseLocal.make_request (envRefused (BASE_URL ++ "/api/stats"))).success
      = false ∧
    (diagnoseLocal.make_request (envRefused (BASE_URL ++ "/api/stats"))).error
      = some "Connection refused - server is not running" :=
  ⟨rfl, rfl, rfl⟩

/-- Claim C4, amended: test-local.py exits 0 iff every check passed and 1
iff some check failed (whenever the run completes without an uncaught
exception); diagnose-local.py exits 0 whenever its main completes,
regardless of how many checks failed. -/
theorem exit_codes_amended :
    (∀ (env : String → FetchOutcome) (outs : List Bool) (p f : Nat),
      (testLocal.runChecks env testLocal.tests []).1 = Except.ok (outs, p, f) →
      ((testLocal.exitCode env = 0 ↔ outs.all (fun b => b) = true) ∧
       (testLocal.exitCode env = 1 ↔ outs.all (fun b => b) = false))) ∧
    (∀ (env : String → FetchOutcome) (pi : String → Except String Unit),
      isOkE (diagnoseLocal.mainRun env pi) = true →
      diagnoseLocal.exitCode env pi = 0) := by
  constructor
  · intro env outs p f h
    obtain ⟨hlen, hp, hf⟩ := runChecks_counts env testLocal.tests [] outs p f h
    have hlog := runChecks_fst_log env testLocal.tests
      (colored_print (String.mk (List.replicate 50 (Char.ofNat 61)))
        (colored_print "🧪 EuroMillions Local API Test Suite" [])) []
    unfold testLocal.exitCode testLocal.mainRun
    dsimp only
    rcases hR : testLocal.runChecks env testLocal.tests
        (colored_print (String.mk (List.replicate 50 (Char.ofNat 61)))
          (colored_print "🧪 EuroMillions Local API Test Suite" [])) with ⟨rr, lr⟩
    rw [hR, h] at hlog
    dsimp only at hlog
    subst hlog
    dsimp only
    subst hf
    by_cases hc : outs.count false = 0
    · have hall := (count_false_zero_iff_all outs).mp hc
      simp [hc, hall]
    · have hall : outs.all (fun b => b) = false := by
        cases hoa : outs.all (fun b => b) with
        | false => rfl
        | true => exact absurd ((count_false_zero_iff_all outs).mpr hoa) hc
      simp [hc, hall]
  · intro env pi h
    unfold diagnoseLocal.exitCode
    cases hm : diagnoseLocal.mainRun env pi with
    | error e => rw [hm] at h; simp [isOkE] at h
    | ok u => rfl

/-- Witness for the amended claim C4: against a healthy server test-local
passes all seven checks and exits 0; against no server diagnose-local
completes and exits 0. -/
theorem exit_codes_amended_witness :
    (testLocal.runChecks envAllPass testLocal.tests []).1
      = Except.ok ([true, true, true, true, true, true, true], 7, 0) ∧
    (testLocal.exitCode envAllPass = 0 ↔
      [true, true, true, true, true, true, true].all (fun b => b) = true) ∧
    isOkE (diagnoseLocal.mainRun envRefused parseIsoAny) = true ∧
    diagnoseLocal.exitCode envRefused parseIsoAny = 0 :=
  ⟨rfl,
    (exit_codes_amended.1 envAllPass
      [true, true, true, true, true, true, true] 7 0 rfl).1,
    rfl, exit_codes_amended.2 envRefused parseIsoAny rfl⟩
